import Mathlib

/-!
Verification development for the `my-rdms` in-process relational database
engine (`my_db/sql_parser.py`, `my_db/query.py`, `my_db/index.py`).

The Python code is shallowly embedded: Python dicts become insertion-ordered
association lists, Python object references to shared mutable row dicts become
natural-number row identifiers resolved through an explicit heap carried in the
database state, and Python exceptions become `Except PyErr`.  The `Database`
class itself (`my_db/database.py`) is not part of the sources; its accessors
are modelled from the specification where noted.
-/

/-- Python `str.upper()` (ASCII), implemented by structural recursion so
that concrete executions reduce inside the kernel. -/
def String.pyUpper (s : String) : String :=
  String.mk (s.toList.map Char.toUpper)

/-- Python `str.lower()` (ASCII), structural. -/
def String.pyLower (s : String) : String :=
  String.mk (s.toList.map Char.toLower)

/-- Python `str.strip()` (no arguments): drop whitespace from both ends,
structural. -/
def String.pyStrip (s : String) : String :=
  String.mk
    (((s.toList.dropWhile Char.isWhitespace).reverse.dropWhile
        Char.isWhitespace).reverse)

namespace MyDb

/-- A scalar cell value: `none` models Python `None` (SQL null); every value
produced by the statement parser is a string. -/
abbrev Val := Option String

/-- A row: Python `dict` from column name to value, kept in insertion order
(Python dicts preserve insertion order; assignment to a fresh key appends). -/
abbrev Row := List (String × Val)

/-- The row arena: row identifier to current row content.  Python rows are
shared mutable dict objects referenced from the table's row list and from
index buckets; identifiers model those references. -/
abbrev Heap := List (Nat × Row)

/-- Association-list lookup, first match wins (Python `dict` access). -/
def lookupA {β : Type} [BEq α] : List (α × β) → α → Option β
  | [], _ => none
  | (k, v) :: rest, key => if k == key then some v else lookupA rest key

/-- Association-list assignment: overwrite in place if the key exists,
otherwise append at the end (Python `d[k] = v` insertion-order semantics). -/
def setA {β : Type} [BEq α] : List (α × β) → α → β → List (α × β)
  | [], k, v => [(k, v)]
  | (k', v') :: rest, k, v =>
    if k' == k then (k, v) :: rest else (k', v') :: setA rest k v

/-- Association-list key deletion (Python `del d[k]`). -/
def delA {β : Type} [BEq α] : List (α × β) → α → List (α × β)
  | [], _ => []
  | (k', v') :: rest, k => if k' == k then rest else (k', v') :: delA rest k

/-- Python `dict.__eq__`: equal key sets with equal values, ignoring
insertion order.  Rows built by the engine never carry duplicate keys. -/
def rowEq (r1 r2 : Row) : Bool :=
  r1.all (fun kv => lookupA r2 kv.1 == some kv.2) &&
  r2.all (fun kv => lookupA r1 kv.1 == some kv.2)

/-- Python `str(v)` on a cell value (`str(None) = "None"`). -/
def pyStr (v : Val) : String :=
  match v with
  | none => "None"
  | some s => s

/-- Python `row.get(k)` with default `None`: absent keys read as null. -/
def pyGetRow (r : Row) (k : String) : Val :=
  (lookupA r k).getD none

/-- Resolve a row reference through the heap (a dangling reference reads as
the empty dict; the engine never creates one). -/
def heapRowH (heap : Heap) (i : Nat) : Row :=
  (lookupA heap i).getD []

/-- Python `str(row.get(col, ""))` as used by `filter_rows`: absent key gives
`""`, a null value prints as `"None"`. -/
def rowStr (heap : Heap) (i : Nat) (col : String) : String :=
  match lookupA (heapRowH heap i) col with
  | none => ""
  | some none => "None"
  | some (some s) => s

/-- Worker for `pySplitWs`, accumulating the current word reversed. -/
def pySplitWsAux : List Char → List Char → List String
  | cur, [] => if cur.isEmpty then [] else [String.mk cur.reverse]
  | cur, c :: rest =>
    if c.isWhitespace then
      if cur.isEmpty then pySplitWsAux [] rest
      else String.mk cur.reverse :: pySplitWsAux [] rest
    else pySplitWsAux (c :: cur) rest

/-- Python `str.split()` with no arguments: split on whitespace runs,
dropping empty fragments. -/
def pySplitWs (s : String) : List String :=
  pySplitWsAux [] s.toList

/-- Index (in characters) of the first occurrence of `needle` in the list,
`none` when absent (Python `str.find` / the `in` test). -/
def findSubPos : List Char → List Char → Option Nat
  | [], needle => if needle.isEmpty then some 0 else none
  | c :: rest, needle =>
    if needle.isPrefixOf (c :: rest) then some 0
    else (findSubPos rest needle).map (· + 1)

/-- Python `sub in s` substring test. -/
def hasSub (s sub : String) : Bool :=
  (findSubPos s.toList sub.toList).isSome

/-- Python `s.index(sub)` as an option (callers guard with `hasSub`). -/
def pyIndexOf (s sub : String) : Option Nat :=
  findSubPos s.toList sub.toList

/-- Python `s[:n]` over characters. -/
def pyTake (s : String) (n : Nat) : String :=
  String.mk (s.toList.take n)

/-- Python `s[n:]` over characters. -/
def pyDrop (s : String) (n : Nat) : String :=
  String.mk (s.toList.drop n)

/-- Python `s.split(sep, 1)`: split at the first occurrence only. -/
def splitFirst (s sep : String) : List String :=
  match findSubPos s.toList sep.toList with
  | none => [s]
  | some i => [pyTake s i, pyDrop s (i + sep.toList.length)]

/-- Worker for `pySplitAll`: accumulates the current fragment (reversed) and
splits at every non-overlapping occurrence of `sep`.  The fuel argument
(always at least the list length plus one at the call site) keeps the
recursion structural so that concrete executions reduce in the kernel. -/
def splitAllAux (sep : List Char) : Nat → List Char → List Char → List (List Char)
  | 0, acc, _ => [acc.reverse]
  | _ + 1, acc, [] => [acc.reverse]
  | n + 1, acc, c :: rest =>
    if sep.isPrefixOf (c :: rest) then
      acc.reverse :: splitAllAux sep n [] (List.drop (sep.length - 1) rest)
    else
      splitAllAux sep n (c :: acc) rest

/-- Python `s.split(sep)` for a non-empty separator (all occurrences, empty
fragments kept; Python rejects an empty separator, modelled as the identity
split). -/
def pySplitAll (s sep : String) : List String :=
  if sep.toList.isEmpty then [s]
  else (splitAllAux sep.toList (s.toList.length + 1) [] s.toList).map String.mk

/-- Python `s.replace(old, new)`: replace every non-overlapping occurrence. -/
def pyReplace (s old new : String) : String :=
  String.intercalate new (pySplitAll s old)

/-- Python `s.strip(chars)`: drop characters of the set from both ends. -/
def stripSet (s : String) (chars : List Char) : String :=
  let l := s.toList.dropWhile (fun c => chars.contains c)
  String.mk ((l.reverse.dropWhile (fun c => chars.contains c)).reverse)

/-- Python `s.rstrip(chars)`: drop characters of the set from the right. -/
def rstripSet (s : String) (chars : List Char) : String :=
  String.mk ((s.toList.reverse.dropWhile (fun c => chars.contains c)).reverse)

/-- Python `value.strip().strip("'\"")` quote stripping used by the parser
and the WHERE evaluator. -/
def stripQuotes (s : String) : String :=
  stripSet s ['\'', '"']

/-- Boolean string prefix test (`l.data.isPrefixOf`), used to state that
error messages are descriptive `Error:`-prefixed reports. -/
def strStarts (pre s : String) : Bool :=
  pre.toList.isPrefixOf s.toList

/-- Python exceptions raised by the engine. -/
inductive PyErr where
  | valueError (msg : String)
  | indexError (msg : String)
deriving DecidableEq, Repr

/-- Python `str(e)` of a caught exception, used when parse errors wrap an
inner failure into a new `ValueError` message. -/
def errText : PyErr → String
  | .valueError m => m
  | .indexError m => m

/-- Digit run of a character list. -/
def digitsOf (l : List Char) : List Char :=
  l.takeWhile (fun c => c.isDigit)

/-- Numeric value of a digit string. -/
def natOfDigits (l : List Char) : Nat :=
  l.foldl (fun acc c => 10 * acc + (c.toNat - 48)) 0

/-- An exact decimal number `num / 10 ^ exp`, the model of the values
Python's `float()` produces from the engine's decimal strings (double
rounding is out of model: every literal the engine compares is taken at its
exact decimal value). -/
structure PyFloat where
  num : Int
  exp : Nat
deriving DecidableEq, Repr

/-- Strict order on decimals by cross multiplication. -/
def pfLt (a b : PyFloat) : Bool :=
  decide (a.num * (10 : Int) ^ b.exp < b.num * (10 : Int) ^ a.exp)

/-- Non-strict order on decimals by cross multiplication. -/
def pfLe (a b : PyFloat) : Bool :=
  decide (a.num * (10 : Int) ^ b.exp ≤ b.num * (10 : Int) ^ a.exp)

/-- Python `float(s)` on decimal literals (optional sign, digits, optional
fraction, optional `e`/`E` exponent with optional sign, surrounding
whitespace), as an exact decimal.  `inf`/`nan` and underscore-grouped
digits, which `float()` also accepts, are out of model, as is IEEE double
rounding (every literal is taken at its exact decimal value); any other
string fails (Python `ValueError`), giving `none`. -/
def parseFloat (s : String) : Option PyFloat :=
  let t := s.pyStrip.toList
  let (neg, t) :=
    match t with
    | '-' :: r => (true, r)
    | '+' :: r => (false, r)
    | _ => (false, t)
  let intPart := digitsOf t
  let rest := t.drop intPart.length
  let (fracPart, rest2) :=
    match rest with
    | '.' :: r => (digitsOf r, r.drop (digitsOf r).length)
    | _ => ([], rest)
  if intPart.length + fracPart.length == 0 then none
  else
    let num0 : Int := (natOfDigits (intPart ++ fracPart) : Int)
    let num : Int := if neg then -num0 else num0
    let exp : Nat := fracPart.length
    match rest2 with
    | [] => some ⟨num, exp⟩
    | c :: es =>
      if c == 'e' || c == 'E' then
        let (negE, ds) :=
          match es with
          | '-' :: r => (true, r)
          | '+' :: r => (false, r)
          | _ => (false, es)
        if ds.isEmpty || !(ds.all (fun d => d.isDigit)) then none
        else
          let e : Int := if negE then -(natOfDigits ds : Int) else (natOfDigits ds : Int)
          if (exp : Int) ≤ e then some ⟨num * (10 : Int) ^ (e - (exp : Int)).toNat, 0⟩
          else some ⟨num, ((exp : Int) - e).toNat⟩
      else none

/-- Lexicographic (code-point) strict order on strings, Python's `<`,
implemented structurally. -/
def strLtChars : List Char → List Char → Bool
  | [], [] => false
  | [], _ :: _ => true
  | _ :: _, [] => false
  | a :: as, b :: bs =>
    if a < b then true else if b < a then false else strLtChars as bs

/-- Python `s1 < s2` on strings. -/
def pyStrLt (a b : String) : Bool :=
  strLtChars a.toList b.toList

/-- Python `s1 <= s2` on strings (total order, so the complement of the
reversed strict order). -/
def pyStrLe (a b : String) : Bool :=
  !(strLtChars b.toList a.toList)

/-- Matcher for the regex produced by the `LIKE` translation
(`%` → `.*`, `_` → `.`), run as `re.search("^pat$", s, re.IGNORECASE)`:
`.*` matches any sequence, `.` any character, other characters literally up
to ASCII case.  Patterns containing further regex metacharacters are out of
model (no claim exercises them). -/
def rxMatch : List Char → List Char → Bool
  | [], [] => true
  | [], _ :: _ => false
  | '.' :: '*' :: ps, s =>
    rxMatch ps s ||
      (match s with
       | [] => false
       | _ :: s' => rxMatch ('.' :: '*' :: ps) s')
  | '.' :: _, [] => false
  | '.' :: ps, _ :: s => rxMatch ps s
  | _ :: _, [] => false
  | p :: ps, c :: s => (Char.toLower p == Char.toLower c) && rxMatch ps s
termination_by ps s => (ps.length, s.length)

/-- WHERE comparison operators of `filter_rows`. -/
inductive WhereOp where
  | opEq | opNe | opGt | opLt | opGe | opLe | opLike
deriving DecidableEq, Repr

/-- Operator detection of `filter_rows` (`query.py`): scan for `LIKE`
(in the uppercased clause), then `>=`, `<=`, `!=`, `<>`, `>`, `<`, `=` in
the raw clause, first match wins; the clause is split on the winning
operator (`split(" LIKE ", 1)` for `LIKE`, full `split` otherwise). -/
def detectOp (clause : String) : Except PyErr (WhereOp × List String) :=
  if hasSub clause.pyUpper "LIKE" then
    .ok (.opLike,
      if hasSub clause " LIKE " then splitFirst clause " LIKE "
      else splitFirst clause " like ")
  else if hasSub clause ">=" then .ok (.opGe, pySplitAll clause ">=")
  else if hasSub clause "<=" then .ok (.opLe, pySplitAll clause "<=")
  else if hasSub clause "!=" then .ok (.opNe, pySplitAll clause "!=")
  else if hasSub clause "<>" then .ok (.opNe, pySplitAll clause "<>")
  else if hasSub clause ">" then .ok (.opGt, pySplitAll clause ">")
  else if hasSub clause "<" then .ok (.opLt, pySplitAll clause "<")
  else if hasSub clause "=" then .ok (.opEq, pySplitAll clause "=")
  else .error (.valueError ("Unsupported WHERE operator in: " ++ clause))

/-- Python `parts[1]` (raises `IndexError` when the split produced a single
fragment, possible on the `LIKE` path). -/
def part1 (parts : List String) : Except PyErr String :=
  match parts with
  | _ :: v :: _ => .ok v
  | _ => .error (.indexError "list index out of range")

/-- Row-versus-literal comparison of `filter_rows`: `=`/`!=` compare the
stringified cell and the literal directly as strings; the ordering operators
first try `float()` on both sides and fall back to lexicographic string
comparison when either parse fails; `LIKE` uses the translated pattern. -/
def matchOp (op : WhereOp) (rv value : String) : Bool :=
  match op with
  | .opEq => rv == value
  | .opNe => rv != value
  | .opGt =>
    match parseFloat rv, parseFloat value with
    | some a, some b => pfLt b a
    | _, _ => pyStrLt value rv
  | .opLt =>
    match parseFloat rv, parseFloat value with
    | some a, some b => pfLt a b
    | _, _ => pyStrLt rv value
  | .opGe =>
    match parseFloat rv, parseFloat value with
    | some a, some b => pfLe b a
    | _, _ => pyStrLe value rv
  | .opLe =>
    match parseFloat rv, parseFloat value with
    | some a, some b => pfLe a b
    | _, _ => pyStrLe rv value
  | .opLike =>
    rxMatch ((pyReplace (pyReplace value "%" ".*") "_" ".").toList) rv.toList

/-- Embedding of `filter_rows(rows, where_clause)` (`query.py`): detect the
operator, take column and literal from the first two fragments (column
trimmed; literal trimmed and quote-stripped), and keep the rows whose
`str(row.get(col, ""))` satisfies the comparison. -/
def filter_rows (heap : Heap) (ids : List Nat) (clause : String) :
    Except PyErr (List Nat) := do
  let (op, parts) ← detectOp clause
  let col_name := (parts.headD "").pyStrip
  let rawVal ← part1 parts
  let value := stripQuotes rawVal.pyStrip
  .ok (ids.filter (fun i => matchOp op (rowStr heap i col_name) value))

/-- A foreign-key reference stored on a column (`{"ref_table": ...,
"ref_column": ...}` built by `parse_create_table`). -/
structure FK where
  ref_table : String
  ref_column : String
deriving DecidableEq, Repr

/-- A parsed column definition (`parse_create_table`): name and type as
written, constraint flags, optional foreign key. -/
structure ColumnDef where
  name : String
  type : String
  primary_key : Bool
  unique : Bool
  foreign_key : Option FK
deriving DecidableEq, Repr

/-- An entry of the separate `foreign_keys` list collected by
`parse_create_table` and stored on the table. -/
structure FKEntry where
  column : String
  ref_table : String
  ref_column : String
deriving DecidableEq, Repr

/-- A table as stored in `db.tables` (`create_table` in `query.py`):
column definitions, the ordered row list (as row references), and the
collected foreign-key entries. -/
structure Table where
  columns : List ColumnDef
  rowIds : List Nat
  foreign_keys : List FKEntry
deriving DecidableEq, Repr

/-- An index as stored by `create_index` (`index.py`): declared index name,
the actual column spelling, and the bucket map from raw value to the list of
row references (keys are cell values, so a null key is representable). -/
structure IndexData where
  name : String
  column : String
  map : List (Val × List Nat)
deriving DecidableEq, Repr

/-- The database state: `db.tables` (keyed by lowercase canonical name),
`db.indexes` (lowercase table name to lowercase column name to index), the
row arena modelling shared mutable row dicts, and the next fresh row id. -/
structure DB where
  tables : List (String × Table)
  indexes : List (String × List (String × IndexData))
  heap : List (Nat × Row)
  nextId : Nat
deriving DecidableEq, Repr

/-- The empty database. -/
def emptyDb : DB := ⟨[], [], [], 0⟩

/-- Modelled from the spec: `my_db/database.py` is not among the sources.
Spec 4.2: the Schema and Row Store provides case-insensitive table
resolution (`resolve_table`), with tables stored under the lowercase
canonical name.  Returns the stored key together with the table. -/
def getTableKey (db : DB) (name : String) : Option (String × Table) :=
  db.tables.find? (fun kv => kv.1.pyLower == name.pyLower)

/-- Modelled from the spec: `db.get_table(name)`, case-insensitive table
lookup returning the table or `None` (spec 4.2). -/
def DB.get_table (db : DB) (name : String) : Option Table :=
  (getTableKey db name).map (fun kv => kv.2)

/-- Modelled from the spec: `db.get_table_name(name)`, case-insensitive
resolution to the stored canonical name (spec 4.2 `resolve_table`). -/
def DB.get_table_name (db : DB) (name : String) : Option String :=
  (getTableKey db name).map (fun kv => kv.1)

/-- Modelled from the spec: `db.table_exists(name)` (spec 4.2). -/
def DB.table_exists (db : DB) (name : String) : Bool :=
  (getTableKey db name).isSome

/-- Python `f"{db.get_table_name(t)}"`: a missing table interpolates as
`"None"`. -/
def tableNameStr (db : DB) (name : String) : String :=
  match DB.get_table_name db name with
  | some s => s
  | none => "None"

/-- Write a table back under its stored key (the Python code mutates the
table object returned by `get_table` in place). -/
def setTableAt (db : DB) (key : String) (t : Table) : DB :=
  { db with tables := setA db.tables key t }

/-- Heap write: mutate a shared row object in place. -/
def setRowAt (db : DB) (i : Nat) (r : Row) : DB :=
  { db with heap := setA db.heap i r }

/-- Current content of a row reference. -/
def dbRow (db : DB) (i : Nat) : Row :=
  heapRowH db.heap i

/-- Python `map.setdefault(value, []).append(row)` on a bucket map. -/
def appendBucket (m : List (Val × List Nat)) (v : Val) (rid : Nat) :
    List (Val × List Nat) :=
  match lookupA m v with
  | some b => setA m v (b ++ [rid])
  | none => m ++ [(v, [rid])]

/-- Python `bucket.remove(row)`: drop the first element whose current row
content is dict-equal to the target content; `none` when no element matches
(Python raises `ValueError`). -/
def removeByVal (db : DB) : List Nat → Row → Option (List Nat)
  | [], _ => none
  | j :: rest, tgt =>
    if rowEq (dbRow db j) tgt then some rest
    else (removeByVal db rest tgt).map (fun l => j :: l)

/-- Store an index under `(table key, column key)`, creating the per-table
dict when absent (replacing any previous index on the column). -/
def storeIndex (db : DB) (tableKey colKey : String) (ix : IndexData) : DB :=
  let tblIdx := (lookupA db.indexes tableKey).getD []
  { db with indexes := setA db.indexes tableKey (setA tblIdx colKey ix) }

/-- Embedding of `create_index(db, table_name, index_name, column)`
(`index.py`): resolve the table case-insensitively, resolve the actual
column spelling, build the bucket map over current rows skipping null
values, and store the index under the lowercase table and column keys. -/
def create_index (db : DB) (table_name index_name column : String) :
    String × DB :=
  match DB.get_table db table_name with
  | none => ("Error: " ++ ("Table '" ++ table_name ++ "' does not exist"), db)
  | some table =>
    let column_lower := column.pyLower
    match table.columns.find? (fun col => col.name.pyLower == column_lower) with
    | none =>
      ("Error: " ++ ("Column '" ++ column ++ "' does not exist in table '" ++
        table_name ++ "'"), db)
    | some actualCol =>
      let actual_column_name := actualCol.name
      let index_map := table.rowIds.foldl
        (fun m rid =>
          let value := pyGetRow (dbRow db rid) actual_column_name
          if value == none then m else appendBucket m value rid) []
      let table_key := table_name.pyLower
      let db := storeIndex db table_key column_lower
        ⟨index_name, actual_column_name, index_map⟩
      let an := tableNameStr db table_name
      ("✓ Index '" ++ index_name ++ "' created on column '" ++
        actual_column_name ++ "' in table '" ++ an ++ "'.", db)

/-- Embedding of `update_indexes_on_insert(db, table_name, row)`
(`index.py`): for every index on the table, append the row reference to the
bucket of its current value on the indexed column, skipping null values. -/
def update_indexes_on_insert (db : DB) (table_name : String) (rid : Nat) : DB :=
  let table_key := table_name.pyLower
  match lookupA db.indexes table_key with
  | none => db
  | some idxs =>
    let idxs := idxs.map (fun kv =>
      let ix := kv.2
      let value := pyGetRow (dbRow db rid) ix.column
      if value == none then kv
      else (kv.1, { ix with map := appendBucket ix.map value rid }))
    { db with indexes := setA db.indexes table_key idxs }

/-- Removal phase of `update_indexes_on_update`: for each row, read its
current value on the indexed column and, when that value is a bucket key,
remove the row from the bucket (`list.remove`, which raises `ValueError`
when no dict-equal element is present) and prune the bucket if emptied. -/
def onUpdateRemove (db : DB) (actual_col : String) :
    List (Val × List Nat) → List Nat → Except PyErr (List (Val × List Nat))
  | m, [] => .ok m
  | m, rid :: rest =>
    let old_value := pyGetRow (dbRow db rid) actual_col
    match lookupA m old_value with
    | none => onUpdateRemove db actual_col m rest
    | some bucket =>
      match removeByVal db bucket (dbRow db rid) with
      | none => .error (.valueError "list.remove(x): x not in list")
      | some bucket =>
        let m := if bucket.isEmpty then delA m old_value else setA m old_value bucket
        onUpdateRemove db actual_col m rest

/-- Addition phase of `update_indexes_on_update`: mutate each row's indexed
column to the new value, then append the row reference to the new value's
bucket. -/
def onUpdateAdd (actual_col : String) (new_value : Val) :
    DB → List (Val × List Nat) → List Nat → DB × List (Val × List Nat)
  | db, m, [] => (db, m)
  | db, m, rid :: rest =>
    let db := setRowAt db rid (setA (dbRow db rid) actual_col new_value)
    onUpdateAdd actual_col new_value db (appendBucket m new_value rid) rest

/-- Embedding of `update_indexes_on_update(db, table_name, rows_to_update,
column, new_value)` (`index.py`): when an index exists on the (lowercased)
column, remove each affected row from its old-value bucket, then mutate the
row's field to the new value and file it under the new-value bucket (the new
value is filed even when it is null). -/
def update_indexes_on_update (db : DB) (table_name : String)
    (rows_to_update : List Nat) (column : String) (new_value : Val) :
    Except PyErr DB :=
  let table_key := table_name.pyLower
  let column_lower := column.pyLower
  match lookupA db.indexes table_key with
  | none => .ok db
  | some idxs =>
    match lookupA idxs column_lower with
    | none => .ok db
    | some ix => do
      let m ← onUpdateRemove db ix.column ix.map rows_to_update
      let (db, m) := onUpdateAdd ix.column new_value db m rows_to_update
      .ok (storeIndex db table_key column_lower { ix with map := m })

/-- Per-index work of `update_indexes_on_delete`: remove each deleted row
from the bucket of its current value when that value is a key, pruning
emptied buckets. -/
def onDeleteOne (db : DB) (actual_col : String) :
    List (Val × List Nat) → List Nat → Except PyErr (List (Val × List Nat))
  | m, [] => .ok m
  | m, rid :: rest =>
    let value := pyGetRow (dbRow db rid) actual_col
    match lookupA m value with
    | none => onDeleteOne db actual_col m rest
    | some bucket =>
      match removeByVal db bucket (dbRow db rid) with
      | none => .error (.valueError "list.remove(x): x not in list")
      | some bucket =>
        let m := if bucket.isEmpty then delA m value else setA m value bucket
        onDeleteOne db actual_col m rest

/-- Worker folding `update_indexes_on_delete` over the table's indexes. -/
def onDeleteIdxs (db : DB) (rids : List Nat) :
    List (String × IndexData) → Except PyErr (List (String × IndexData))
  | [] => .ok []
  | (c, ix) :: rest => do
    let m ← onDeleteOne db ix.column ix.map rids
    let rest ← onDeleteIdxs db rids rest
    .ok ((c, { ix with map := m }) :: rest)

/-- Embedding of `update_indexes_on_delete(db, table_name, rows_to_delete)`
(`index.py`): for every index on the table, evict each deleted row from its
current-value bucket, pruning emptied buckets. -/
def update_indexes_on_delete (db : DB) (table_name : String)
    (rids : List Nat) : Except PyErr DB :=
  let table_key := table_name.pyLower
  match lookupA db.indexes table_key with
  | none => .ok db
  | some idxs => do
    let idxs ← onDeleteIdxs db rids idxs
    .ok { db with indexes := setA db.indexes table_key idxs }

/-- Embedding of `lookup_by_index(db, table_name, column, value)`
(`index.py`): `none` when no index exists on the (lowercased) table and
column; otherwise the bucket for the probe value, defaulting to the empty
list. -/
def lookup_by_index (db : DB) (table_name column : String) (value : Val) :
    Option (List Nat) :=
  match lookupA db.indexes table_name.pyLower with
  | none => none
  | some idxs =>
    match lookupA idxs column.pyLower with
    | none => none
    | some ix => some ((lookupA ix.map value).getD [])

/-- The projection of a SELECT: `"*"` or an explicit column list. -/
inductive Cols where
  | star
  | cols (cs : List String)
deriving DecidableEq, Repr

/-- The join descriptor built by `parse_select`. -/
structure JoinInfo where
  table : String
  left : String
  right : String
deriving DecidableEq, Repr

/-- The typed statement descriptor produced by `parse` (the Python code uses
a dict with a `"type"` tag and per-kind fields). -/
inductive Parsed where
  | showTables
  | describe (table : String)
  | createTable (table : String) (columns : List ColumnDef)
      (foreign_keys : List FKEntry)
  | insertStmt (table : String) (values : List String)
  | selectStmt (table : String) (columns : Cols) (join : Option JoinInfo)
      (whereClause : Option String)
  | updateStmt (table : String) (updates : List (String × String))
      (whereClause : Option String)
  | deleteStmt (table : String) (whereClause : Option String)
  | dropTableStmt (table : String)
  | createIndexStmt (table index_name column : String)
deriving DecidableEq, Repr

/-- What `execute_query` hands back: a status/result string, or the list of
combined rows of a join query. -/
inductive QueryResult where
  | msg (s : String)
  | rows (rs : List Row)
deriving DecidableEq, Repr

/-- Embedding of `create_table(parsed, db)` (`query.py`): store the table
under the lowercased name with empty rows, or report an error string when a
table with that (case-insensitively resolved) name already exists. -/
def create_table (tname : String) (columns : List ColumnDef)
    (fks : List FKEntry) (db : DB) : String × DB :=
  let table_name := tname.pyLower
  if DB.table_exists db table_name then
    ("Error: " ++ ("Table '" ++ table_name ++ "' already exists"), db)
  else
    ("✓ Table '" ++ table_name ++ "' created successfully.",
      { db with tables := setA db.tables table_name ⟨columns, [], fks⟩ })

/-- Row construction of `insert_into`: positional assignment of the parsed
values over the declared columns; missing trailing values become null, and
surplus values are never read. -/
def buildRow : List ColumnDef → List String → Row → Row
  | [], _, r => r
  | c :: cs, [], r => buildRow cs [] (setA r c.name none)
  | c :: cs, v :: vs, r => buildRow cs vs (setA r c.name (some v))

/-- PRIMARY KEY check of `insert_into`: the first primary-key column whose
new value equals that column's value in some existing row yields the
duplicate-key error message. -/
def pkError (db : DB) (table : Table) (row : Row) (table_name : String) :
    Option String :=
  (table.columns.find? (fun col =>
      col.primary_key &&
        table.rowIds.any (fun rid =>
          pyGetRow (dbRow db rid) col.name == pyGetRow row col.name))).map
    (fun col =>
      "Error: " ++ ("Duplicate PRIMARY KEY value '" ++
        pyStr (pyGetRow row col.name) ++ "' for column '" ++ col.name ++
        "' in table '" ++ tableNameStr db table_name ++ "'"))

/-- UNIQUE check of `insert_into`, analogous to the primary-key check. -/
def uniqueError (db : DB) (table : Table) (row : Row) (table_name : String) :
    Option String :=
  (table.columns.find? (fun col =>
      col.unique &&
        table.rowIds.any (fun rid =>
          pyGetRow (dbRow db rid) col.name == pyGetRow row col.name))).map
    (fun col =>
      "Error: " ++ ("Duplicate UNIQUE value '" ++
        pyStr (pyGetRow row col.name) ++ "' for column '" ++ col.name ++
        "' in table '" ++ tableNameStr db table_name ++ "'"))

/-- FOREIGN KEY check of `insert_into`: for each column carrying a foreign
key whose supplied value is neither null nor the literal token `NULL`,
resolve the referenced table (error when absent) and scan its rows for a
string-equal value in the referenced column (error when none found). -/
def fkCheckCols (db : DB) (row : Row) : List ColumnDef → Option String
  | [] => none
  | col :: rest =>
    match col.foreign_key with
    | none => fkCheckCols db row rest
    | some fk =>
      if pyGetRow row col.name == none ||
          (pyStr (pyGetRow row col.name)).pyUpper == "NULL" then
        fkCheckCols db row rest
      else
        match DB.get_table db fk.ref_table with
        | none =>
          some ("Error: " ++ ("Referenced table '" ++ fk.ref_table ++
            "' does not exist"))
        | some ref_table =>
          if ref_table.rowIds.any (fun rid =>
              pyStr (pyGetRow (dbRow db rid) fk.ref_column) ==
                pyStr (pyGetRow row col.name))
          then fkCheckCols db row rest
          else
            some ("Error: " ++ ("FOREIGN KEY constraint violated - value '" ++
              pyStr (pyGetRow row col.name) ++ "' not found in " ++
              fk.ref_table ++ "." ++ fk.ref_column))

/-- Tail of `insert_into` once the table is resolved and the row is built:
run the three constraint checks in order (each failure returns the error
message with the database untouched), then allocate the row, append its
reference to the table, and notify the index manager. -/
def insertChecked (table_name key : String) (table : Table) (row : Row)
    (db : DB) : String × DB :=
  match pkError db table row table_name with
  | some m => (m, db)
  | none =>
    match uniqueError db table row table_name with
    | some m => (m, db)
    | none =>
      match fkCheckCols db row table.columns with
      | some m => (m, db)
      | none =>
        let rid := db.nextId
        let db := { db with heap := db.heap ++ [(rid, row)], nextId := rid + 1 }
        let db := setTableAt db key { table with rowIds := table.rowIds ++ [rid] }
        let db := update_indexes_on_insert db table_name rid
        ("✓ 1 row inserted into '" ++ tableNameStr db table_name ++ "'.", db)

/-- Embedding of `insert_into(parsed, db)` (`query.py`). -/
def insert_into (table_name : String) (values : List String) (db : DB) :
    String × DB :=
  match getTableKey db table_name with
  | none => ("Error: " ++ ("Table '" ++ table_name ++ "' does not exist"), db)
  | some (key, table) =>
    insertChecked table_name key table (buildRow table.columns values []) db

/-- Embedding of `try_index_lookup(db, table_name, where_clause)`
(`query.py`): only for clauses containing `=`; split once, lowercase the
column, strip quotes from the value, and probe the index map (string probe,
so a null-keyed bucket is never hit here). -/
def try_index_lookup (db : DB) (table_name where_clause : String) :
    Option (List Nat) :=
  if !hasSub where_clause "=" then none
  else
    let parts := splitFirst where_clause "="
    if parts.length != 2 then none
    else
      let column := (parts.headD "").pyStrip.pyLower
      let value := stripQuotes ((parts.getD 1 "").pyStrip)
      match lookupA db.indexes table_name.pyLower with
      | none => none
      | some table_indexes =>
        match lookupA table_indexes column with
        | none => none
        | some index => some ((lookupA index.map (some value)).getD [])

/-- Python `str.ljust`: pad on the right with spaces up to the width. -/
def ljust (s : String) (w : Nat) : String :=
  s ++ String.mk (List.replicate (w - s.length) ' ')

/-- Embedding of `format_table(rows, columns, schema_columns)` (`query.py`):
headers come from the first row's keys for `*`, otherwise from the
projection list; column widths are the maxima of header and value lengths
(the `schema_columns` argument is accepted and unused, as in the source). -/
def format_table (heap : Heap) (rows : List Nat) (columns : Cols)
    (schema_columns : List ColumnDef) : String :=
  let _ := schema_columns
  if rows.isEmpty then "No rows found."
  else
    let headers :=
      match columns with
      | .star => (heapRowH heap (rows.headD 0)).map (fun (kv : String × Val) => kv.1)
      | .cols cs => cs
    let width := fun (h : String) =>
      rows.foldl (fun w rid => max w (rowStr heap rid h).length) h.length
    let header_line :=
      String.intercalate " | " (headers.map (fun h => ljust h (width h)))
    let separator := String.mk (List.replicate header_line.length '-')
    let row_lines := rows.map (fun rid =>
      String.intercalate " | "
        (headers.map (fun h => ljust (rowStr heap rid h) (width h))))
    String.intercalate "\n"
      ([header_line, separator] ++ row_lines ++
        ["\n" ++ toString rows.length ++ " row(s) returned."])

/-- Embedding of `select_from(parsed, db)` (`query.py`): resolve the table,
apply the WHERE clause when present (index probe first, otherwise
`filter_rows`), and format the surviving rows. -/
def select_from (table_name : String) (columns : Cols)
    (whereClause : Option String) (db : DB) : Except PyErr String :=
  match DB.get_table db table_name with
  | none => .ok ("Error: " ++ ("Table '" ++ table_name ++ "' does not exist"))
  | some table => do
    let rows ←
      match whereClause with
      | none => .ok table.rowIds
      | some w =>
        match try_index_lookup db table_name w with
        | some indexed => .ok indexed
        | none => filter_rows db.heap table.rowIds w
    if rows.isEmpty then .ok "No rows found."
    else .ok (format_table db.heap rows columns table.columns)

/-- Python tuple unpacking `a, b = l` for a two-element expectation. -/
def unpack2 (l : List String) : Except PyErr (String × String) :=
  match l with
  | [a, b] => .ok (a, b)
  | l =>
    if l.length < 2 then
      .error (.valueError ("not enough values to unpack (expected 2, got " ++
        toString l.length ++ ")"))
    else .error (.valueError "too many values to unpack (expected 2)")

/-- Inner loop of `select_with_join`: combine one base row with each match,
qualifying keys as `table.column` (base side first, join side second). -/
def joinCombine (db : DB) (base_table_name join_table : String)
    (baseRid : Nat) (matchRows : List Nat) : List Row :=
  matchRows.map (fun m =>
    let combined := (dbRow db baseRid).foldl
      (fun acc kv => setA acc (base_table_name ++ "." ++ kv.1) kv.2) []
    (dbRow db m).foldl
      (fun acc kv => setA acc (join_table ++ "." ++ kv.1) kv.2) combined)

/-- Embedding of `select_with_join(parsed, db)` (`query.py`): nested-loop
equi-join; for each base row probe the index on the join column and fall
back to a linear scan when no index exists. -/
def select_with_join (base_table_name : String) (join_info : JoinInfo)
    (db : DB) : Except PyErr QueryResult :=
  match DB.get_table db base_table_name, DB.get_table db join_info.table with
  | some base_table, some join_table => do
    let lr ← unpack2 (pySplitAll join_info.left ".")
    let rr ← unpack2 (pySplitAll join_info.right ".")
    let left_col := lr.2
    let right_col := rr.2
    let results := base_table.rowIds.foldl (fun acc rid =>
      let key := pyGetRow (dbRow db rid) left_col
      let matchRows :=
        match lookup_by_index db join_info.table right_col key with
        | some ms => ms
        | none =>
          join_table.rowIds.filter (fun j =>
            pyGetRow (dbRow db j) right_col == key)
      acc ++ joinCombine db base_table_name join_info.table rid matchRows) []
    .ok (.rows results)
  | _, _ => .ok (.msg "Error: One or more tables do not exist")

/-- Embedding of `show_tables(db)` (`query.py`). -/
def show_tables (db : DB) : String :=
  if db.tables.isEmpty then "No tables in database."
  else
    String.intercalate "\n"
      ("Tables in the database:" ::
        db.tables.map (fun kv =>
          "- " ++ kv.1 ++ " (" ++ toString kv.2.rowIds.length ++ " rows)"))

/-- Embedding of `describe_table(parsed, db)` (`query.py`); an empty table
name is falsy in Python and reports the missing-name error. -/
def describe_table (table_name : String) (db : DB) : String :=
  if table_name == "" then "Error: Missing table name"
  else
    match DB.get_table db table_name with
    | none => "Error: " ++ ("Table '" ++ table_name ++ "' does not exist")
    | some table =>
      let actual := tableNameStr db table_name
      let bar := String.mk (List.replicate 70 '=')
      let header := ljust "Column" 20 ++ " " ++ ljust "Type" 15 ++ " Constraints"
      let colLines := table.columns.map (fun col =>
        let constraints :=
          (if col.primary_key then ["PRIMARY KEY"] else []) ++
          (if col.unique then ["UNIQUE"] else []) ++
          (match col.foreign_key with
           | some fk => ["FK → " ++ fk.ref_table ++ "." ++ fk.ref_column]
           | none => [])
        let cstr :=
          if constraints.isEmpty then "-"
          else String.intercalate ", " constraints
        ljust col.name 20 ++ " " ++ ljust col.type 15 ++ " " ++ cstr)
      String.intercalate "\n"
        (["\nTable: " ++ actual, bar, header, bar] ++ colLines ++
          [bar, "Total rows: " ++ toString table.rowIds.length])

/-- Row-mutation pass of `update_table`: for each target row, assign every
`SET` column in order under its spelling as parsed (a spelling absent from
the row dict creates a fresh key). -/
def applyUpdates (updates : List (String × String)) (db : DB)
    (rows_to_update : List Nat) : DB :=
  rows_to_update.foldl (fun db rid =>
    updates.foldl (fun db cv =>
      setRowAt db rid (setA (dbRow db rid) cv.1 (some cv.2))) db) db

/-- Embedding of `update_table(parsed, db)` (`query.py`): resolve the rows
to update, mutate them in place, and only then call the index manager's
update hook once per `SET` column.  (The source's backwards-compatibility
branch for a single `column`/`value` pair is unreachable from the parser,
which always supplies the `updates` dict, and is not modelled.) -/
def update_table (table_name : String) (updates : List (String × String))
    (whereClause : Option String) (db : DB) : Except PyErr (String × DB) :=
  match getTableKey db table_name with
  | none =>
    .ok ("Error: " ++ ("Table '" ++ table_name ++ "' does not exist"), db)
  | some (_, table) => do
    let rows_to_update ←
      match whereClause with
      | some w => filter_rows db.heap table.rowIds w
      | none => .ok table.rowIds
    if rows_to_update.isEmpty then .ok ("0 row(s) updated.", db)
    else do
      let db := applyUpdates updates db rows_to_update
      let db ← updates.foldlM (fun db cv =>
        update_indexes_on_update db table_name rows_to_update cv.1 (some cv.2)) db
      .ok ("✓ " ++ toString rows_to_update.length ++ " row(s) updated in '" ++
        tableNameStr db table_name ++ "'.", db)

/-- Innermost cascade loop of `delete_from`: over the dependent table's
rows, null out the FK column of each row whose FK value equals the deleted
row's referenced value, routing the mutation through the index manager. -/
def cascadeRows (other_table_name fk_column : String) (deleted_value : Val) :
    DB → List Nat → Except PyErr DB
  | db, [] => .ok db
  | db, rid :: rest =>
    if pyGetRow (dbRow db rid) fk_column == deleted_value then do
      let db := setRowAt db rid (setA (dbRow db rid) fk_column none)
      let db ← update_indexes_on_update db other_table_name [rid] fk_column none
      cascadeRows other_table_name fk_column deleted_value db rest
    else cascadeRows other_table_name fk_column deleted_value db rest

/-- Cascade loop of `delete_from` over the rows about to be deleted. -/
def cascadeDeleted (other_table_name fk_column ref_column : String)
    (otherRows : List Nat) : DB → List Nat → Except PyErr DB
  | db, [] => .ok db
  | db, drid :: rest => do
    let deleted_value := pyGetRow (dbRow db drid) ref_column
    let db ← cascadeRows other_table_name fk_column deleted_value db otherRows
    cascadeDeleted other_table_name fk_column ref_column otherRows db rest

/-- Cascade loop of `delete_from` over one dependent table's columns: only
columns whose foreign key names exactly the parsed table name (the raw
spelling from the DELETE statement) participate. -/
def cascadeCols (table_name other_table_name : String)
    (rows_to_delete otherRows : List Nat) :
    DB → List ColumnDef → Except PyErr DB
  | db, [] => .ok db
  | db, col :: rest =>
    match col.foreign_key with
    | none => cascadeCols table_name other_table_name rows_to_delete otherRows db rest
    | some fk =>
      if fk.ref_table != table_name then
        cascadeCols table_name other_table_name rows_to_delete otherRows db rest
      else do
        let db ← cascadeDeleted other_table_name col.name fk.ref_column
          otherRows db rows_to_delete
        cascadeCols table_name other_table_name rows_to_delete otherRows db rest

/-- Outer cascade loop of `delete_from` over all tables. -/
def cascadeTables (table_name : String) (rows_to_delete : List Nat) :
    DB → List (String × Table) → Except PyErr DB
  | db, [] => .ok db
  | db, (otn, ot) :: rest => do
    let db ← cascadeCols table_name otn rows_to_delete ot.rowIds db ot.columns
    cascadeTables table_name rows_to_delete db rest

/-- Physical removal pass of `delete_from`: `rows.remove(row)` for each
deleted row (first dict-equal element; `ValueError` when absent). -/
def removeRowsFromList (db : DB) : List Nat → List Nat → Except PyErr (List Nat)
  | rowIds, [] => .ok rowIds
  | rowIds, rid :: rest =>
    match removeByVal db rowIds (dbRow db rid) with
    | none => .error (.valueError "list.remove(x): x not in list")
    | some rowIds => removeRowsFromList db rowIds rest

/-- Embedding of `delete_from(parsed, db)` (`query.py`): resolve the rows to
delete, run the ON DELETE SET NULL cascade pass, update indexes, then remove
the rows from the table's row sequence. -/
def delete_from (table_name : String) (whereClause : Option String)
    (db : DB) : Except PyErr (String × DB) :=
  match getTableKey db table_name with
  | none =>
    .ok ("Error: " ++ ("Table '" ++ table_name ++ "' does not exist"), db)
  | some (key, table) => do
    let rows_to_delete ←
      match whereClause with
      | some w => filter_rows db.heap table.rowIds w
      | none => .ok table.rowIds
    if rows_to_delete.isEmpty then .ok ("0 row(s) deleted.", db)
    else do
      let db ← cascadeTables table_name rows_to_delete db db.tables
      let db ← update_indexes_on_delete db table_name rows_to_delete
      let remaining ← removeRowsFromList db table.rowIds rows_to_delete
      let db := setTableAt db key { table with rowIds := remaining }
      .ok ("✓ " ++ toString rows_to_delete.length ++
        " row(s) deleted from '" ++ tableNameStr db table_name ++ "'.", db)

/-- Embedding of `drop_table(parsed, db)` (`query.py`): delete the table
entry; the index store is left untouched. -/
def drop_table (table_name : String) (db : DB) : String × DB :=
  match DB.get_table_name db table_name with
  | none => ("Error: " ++ ("Table '" ++ table_name ++ "' does not exist"), db)
  | some actual_name =>
    ("✓ Table '" ++ actual_name ++ "' dropped successfully.",
      { db with tables := delA db.tables actual_name })

/-- Embedding of `execute_query(parsed, db)` (`query.py`): dispatch on the
statement kind (the `"Unknown query type"` raise of the source is
unreachable from the parser, whose outputs this inductive enumerates). -/
def execute_query (p : Parsed) (db : DB) : Except PyErr (QueryResult × DB) :=
  match p with
  | .showTables => .ok (.msg (show_tables db), db)
  | .describe t => .ok (.msg (describe_table t db), db)
  | .createTable t cols fks =>
    let r := create_table t cols fks db
    .ok (.msg r.1, r.2)
  | .insertStmt t vs =>
    let r := insert_into t vs db
    .ok (.msg r.1, r.2)
  | .selectStmt t cols jn w =>
    match jn with
    | some j => (select_with_join t j db).map (fun q => (q, db))
    | none => (select_from t cols w db).map (fun m => (.msg m, db))
  | .updateStmt t us w =>
    (update_table t us w db).map (fun r => (.msg r.1, r.2))
  | .deleteStmt t w =>
    (delete_from t w db).map (fun r => (.msg r.1, r.2))
  | .dropTableStmt t =>
    let r := drop_table t db
    .ok (.msg r.1, r.2)
  | .createIndexStmt t n c =>
    let r := create_index db t n c
    .ok (.msg r.1, r.2)

/-- Index of the last occurrence of a character (Python `str.rfind`). -/
def rfindChar (s : String) (c : Char) : Option Nat :=
  let l := s.toList
  (findSubPos l.reverse [c]).map (fun i => l.length - 1 - i)

/-- Step of the parenthesis-aware column-definition splitter of
`parse_create_table`: depth tracks nesting, a top-level comma flushes the
current fragment (trimmed, even when empty). -/
def splitColDefsStep (st : List String × List Char × Int) (c : Char) :
    List String × List Char × Int :=
  let (defs, cur, depth) := st
  if c == '(' then (defs, cur ++ [c], depth + 1)
  else if c == ')' then (defs, cur ++ [c], depth - 1)
  else if c == ',' && depth == 0 then (defs ++ [(String.mk cur).pyStrip], [], depth)
  else (defs, cur ++ [c], depth)

/-- Parenthesis-aware split of the column-definition body (the trailing
fragment is appended only when non-blank). -/
def splitColDefs (columns_str : String) : List String :=
  let st := columns_str.toList.foldl splitColDefsStep ([], [], 0)
  let last := (String.mk st.2.1).pyStrip
  if last != "" then st.1 ++ [last] else st.1

/-- Parse one column definition of `parse_create_table`: `<name> <type>`
tokens, constraint flags by (case-insensitive) substring tests, and the
optional `REFERENCES t(c)` foreign key (split on the literal uppercase
`REFERENCES`, raising `IndexError` when only the uppercased copy
contains it). -/
def parseColumnDef (col_def : String) : Except PyErr (ColumnDef × Option FKEntry) :=
  let tokens := pySplitWs col_def
  if tokens.length < 2 then
    .error (.valueError ("Invalid column definition: " ++ col_def))
  else
    let col_name := tokens.headD ""
    let col_type := (tokens.getD 1 "").pyUpper
    let u := col_def.pyUpper
    let is_primary := hasSub u "PRIMARY KEY" || (hasSub u "PRIMARY" && hasSub u "KEY")
    let is_unique := hasSub u "UNIQUE"
    if hasSub u "REFERENCES" then
      match findSubPos col_def.toList "REFERENCES".toList with
      | none => .error (.indexError "list index out of range")
      | some i =>
        let ref_part := (pyDrop col_def (i + 10)).pyStrip
        if !(hasSub ref_part "(" && hasSub ref_part ")") then
          .error (.valueError ("Invalid FOREIGN KEY REFERENCES syntax in: " ++ col_def))
        else
          let ref_table := ((pySplitAll ref_part "(").headD "").pyStrip.pyLower
          let ref_column :=
            ((pySplitAll ((pySplitAll ref_part "(").getD 1 "") ")").headD "").pyStrip.pyLower
          .ok (⟨col_name, col_type, is_primary, is_unique,
                some ⟨ref_table, ref_column⟩⟩,
               some ⟨col_name, ref_table, ref_column⟩)
    else
      .ok (⟨col_name, col_type, is_primary, is_unique, none⟩, none)

/-- Body of `parse_create_table` (`sql_parser.py`): split off the table
name, take the text up to the last closing parenthesis, split column
definitions parenthesis-aware, and parse each. -/
def parse_create_table_inner (command : String) : Except PyErr Parsed := do
  let command := rstripSet command.pyStrip [';']
  match findSubPos command.toList ['('] with
  | none => .error (.valueError "Missing column definitions in parentheses")
  | some i =>
    let head := pyTake command i
    let body := pyDrop command (i + 1)
    let headToks := pySplitWs head
    if headToks.length < 3 then .error (.indexError "list index out of range")
    else
      match rfindChar body ')' with
      | none => .error (.valueError "Missing closing parenthesis")
      | some last_paren_idx =>
        let table_name := (headToks.getD 2 "").pyLower
        let columns_str := (pyTake body last_paren_idx).pyStrip
        let parsedCols ← (splitColDefs columns_str).mapM parseColumnDef
        .ok (.createTable table_name (parsedCols.map (fun pc => pc.1))
          (parsedCols.filterMap (fun pc => pc.2)))

/-- Embedding of `parse_create_table` with its exception wrapper. -/
def parse_create_table (command : String) : Except PyErr Parsed :=
  match parse_create_table_inner command with
  | .ok p => .ok p
  | .error e => .error (.valueError ("Error parsing CREATE TABLE: " ++ errText e))

/-- Step of the quote-aware VALUES splitter of `parse_insert`: quote
characters toggle the in-quotes state and are dropped; a top-level comma
flushes the current value (trimmed and quote-stripped). -/
def insertValsStep (st : List String × List Char × Bool × Option Char)
    (ch : Char) : List String × List Char × Bool × Option Char :=
  let (values, cur, inq, qc) := st
  if (ch == '\'' || ch == '"') && !inq then (values, cur, true, some ch)
  else if some ch == qc && inq then (values, cur, false, none)
  else if ch == ',' && !inq then
    (values ++ [stripQuotes (String.mk cur).pyStrip], [], inq, qc)
  else (values, cur ++ [ch], inq, qc)

/-- The VALUES list parser of `parse_insert`; the trailing value is kept
only when non-blank. -/
def parseValuesLoop (values_str : String) : List String :=
  let st := values_str.toList.foldl insertValsStep ([], [], false, none)
  let last := (String.mk st.2.1).pyStrip
  if last != "" then st.1 ++ [stripQuotes last] else st.1

/-- Body of `parse_insert` (`sql_parser.py`): split on the literal
`VALUES` (raising `IndexError` when only the uppercased command contains
it), take the table name from the left part, and parse the value list. -/
def parse_insert_inner (command : String) : Except PyErr Parsed :=
  if !hasSub command.pyUpper "VALUES" then
    .error (.valueError "Missing VALUES keyword")
  else
    match findSubPos command.toList "VALUES".toList with
    | none => .error (.indexError "list index out of range")
    | some i =>
      let p0 := pyTake command i
      let p1 := pyDrop command (i + 6)
      let table_name :=
        (pyReplace (pyReplace p0 "INSERT INTO" "") "insert into" "").pyStrip
      let values_str := stripSet p1.pyStrip ['(', ')', ';']
      .ok (.insertStmt table_name (parseValuesLoop values_str))

/-- Embedding of `parse_insert` with its exception wrapper. -/
def parse_insert (command : String) : Except PyErr Parsed :=
  match parse_insert_inner command with
  | .ok p => .ok p
  | .error e => .error (.valueError ("Error parsing INSERT: " ++ errText e))

/-- Body of `parse_select` (`sql_parser.py`): the command is uppercased
before splitting on `FROM`, so everything after `FROM` (including any WHERE
text) is folded into the base-table field; the `where` field is initialised
to `None` and never assigned. -/
def parse_select_inner (command : String) : Except PyErr Parsed :=
  let command_upper := command.pyUpper
  if !hasSub command_upper "FROM" then .error (.valueError "Missing FROM keyword")
  else
    let parts := splitFirst command_upper "FROM"
    let select_part := parts.headD ""
    let rest := parts.getD 1 ""
    let columns_str := (pyReplace select_part "SELECT" "").pyStrip
    let columns :=
      if columns_str == "*" then Cols.star
      else Cols.cols ((pySplitAll columns_str ",").map (fun c => c.pyStrip))
    let rest_upper := rest.pyUpper
    if hasSub rest_upper "JOIN" then do
      let jparts := splitFirst rest "JOIN"
      let from_part := jparts.headD ""
      let join_part := jparts.getD 1 ""
      let base_table := from_part.pyStrip.pyLower
      let jo ← unpack2 (splitFirst join_part "ON")
      let join_table_part := jo.1
      let on_part := jo.2
      if !hasSub on_part "=" then
        .error (.valueError "JOIN condition must use '=' ")
      else
        let eqp := splitFirst on_part "="
        let left_expr := eqp.headD ""
        let right_expr := eqp.getD 1 ""
        .ok (.selectStmt base_table columns
          (some ⟨join_table_part.pyStrip.pyLower, left_expr.pyStrip.pyLower,
                 right_expr.pyStrip.pyLower⟩) none)
    else
      .ok (.selectStmt (rest.pyStrip.pyLower) columns none none)

/-- Embedding of `parse_select` with its exception wrapper (the misspelled
message is the source's). -/
def parse_select (command : String) : Except PyErr Parsed :=
  match parse_select_inner command with
  | .ok p => .ok p
  | .error e => .error (.valueError ("Error pasring select: " ++ errText e))

/-- Step of the quote-aware assignment splitter of `parse_update`: quote
characters toggle the state but stay in the fragment; a top-level comma
flushes the current fragment when non-blank. -/
def updateAssignStep (st : List String × List Char × Bool × Option Char)
    (ch : Char) : List String × List Char × Bool × Option Char :=
  let (asgs, cur, inq, qc) := st
  let toggled := (ch == '\'' || ch == '"') && (!inq || qc == some ch)
  let inq2 := if toggled then !inq else inq
  let qc2 := if toggled then (if inq then none else some ch) else qc
  if ch == ',' && !inq2 then
    let t := (String.mk cur).pyStrip
    ((if t != "" then asgs ++ [t] else asgs), [], inq2, qc2)
  else (asgs, cur ++ [ch], inq2, qc2)

/-- The SET-clause splitter of `parse_update`. -/
def splitAssignments (set_clause : String) : List String :=
  let st := set_clause.toList.foldl updateAssignStep ([], [], false, none)
  let last := (String.mk st.2.1).pyStrip
  if last != "" then st.1 ++ [last] else st.1

/-- Parse each `col = value` assignment of `parse_update` into the updates
dict (split at the first `=`; value trimmed and quote-stripped). -/
def parseAssignments :
    List String → List (String × String) →
    Except PyErr (List (String × String))
  | [], updates => .ok updates
  | a :: rest, updates =>
    if !hasSub a "=" then
      .error (.valueError ("Invalid assignment format: " ++ a))
    else
      let parts := splitFirst a "="
      let column := (parts.headD "").pyStrip
      let value := stripQuotes ((parts.getD 1 "").pyStrip)
      parseAssignments rest (setA updates column value)

/-- Body of `parse_update` (`sql_parser.py`): table name from the text
before the first `SET`, optional WHERE split on the original casing, and
the quote-aware multi-assignment SET clause. -/
def parse_update_inner (command : String) : Except PyErr Parsed := do
  let command_upper := command.pyUpper
  match pyIndexOf command_upper "SET" with
  | none => .error (.valueError "Missing SET keyword")
  | some si =>
    let update_to_set := (pyTake command si).pyStrip
    let table_name :=
      (pyReplace (pyReplace update_to_set "UPDATE" "") "update" "").pyStrip
    let rest := (pyDrop command (si + 3)).pyStrip
    let wsplit :=
      match pyIndexOf rest.pyUpper "WHERE" with
      | some wi => (some ((pyDrop rest (wi + 5)).pyStrip), (pyTake rest wi).pyStrip)
      | none => (none, rest)
    let whereClause := wsplit.1
    let set_clause := wsplit.2
    if !hasSub set_clause "=" then
      .error (.valueError "Invalid SET clause format")
    else do
      let updates ← parseAssignments (splitAssignments set_clause) []
      .ok (.updateStmt table_name updates whereClause)

/-- Embedding of `parse_update` with its exception wrapper. -/
def parse_update (command : String) : Except PyErr Parsed :=
  match parse_update_inner command with
  | .ok p => .ok p
  | .error e => .error (.valueError ("Error parsing UPDATE: " ++ errText e))

/-- Body of `parse_delete` (`sql_parser.py`): the table name is taken from
the uppercased command (between `FROM` and any `WHERE`), so it reaches the
executor uppercased; the WHERE text is sliced from the original command. -/
def parse_delete_inner (command : String) : Except PyErr Parsed :=
  let command_upper := command.pyUpper
  if !hasSub command_upper "FROM" then .error (.valueError "Missing FROM keyword")
  else
    let parts := pySplitAll command_upper "FROM"
    let table_part := pySplitAll ((parts.getD 1 "").pyStrip) "WHERE"
    let table_name := (table_part.headD "").pyStrip
    if table_part.length > 1 then
      match pyIndexOf command.pyUpper "WHERE" with
      | some wi => .ok (.deleteStmt table_name (some ((pyDrop command (wi + 5)).pyStrip)))
      | none => .error (.valueError "substring not found")
    else .ok (.deleteStmt table_name none)

/-- Embedding of `parse_delete` with its exception wrapper. -/
def parse_delete (command : String) : Except PyErr Parsed :=
  match parse_delete_inner command with
  | .ok p => .ok p
  | .error e => .error (.valueError ("Error parsing DELETE: " ++ errText e))

/-- Body of `parse_drop_table` (`sql_parser.py`): the table name is the
trimmed text after `TABLE` in the uppercased command (so it too reaches the
executor uppercased). -/
def parse_drop_table_inner (command : String) : Except PyErr Parsed :=
  let command_upper := command.pyUpper
  if !hasSub command_upper "TABLE" then .error (.valueError "Missing TABLE keyword")
  else .ok (.dropTableStmt (((pySplitAll command_upper "TABLE").getD 1 "").pyStrip))

/-- Embedding of `parse_drop_table` with its exception wrapper. -/
def parse_drop_table (command : String) : Except PyErr Parsed :=
  match parse_drop_table_inner command with
  | .ok p => .ok p
  | .error e => .error (.valueError ("Error parsing DROP TABLE: " ++ errText e))

/-- Body of `parse_create_index` (`sql_parser.py`): index name from the
third token, table and column from the uppercased text after `ON`. -/
def parse_create_index_inner (command : String) : Except PyErr Parsed := do
  let parts := pySplitWs command
  if parts.length < 3 then .error (.indexError "list index out of range")
  else
    let index_name := parts.getD 2 ""
    let sp := splitFirst command.pyUpper "ON"
    if sp.length < 2 then .error (.indexError "list index out of range")
    else
      let on_part := (sp.getD 1 "").pyStrip
      let tp ← unpack2 (splitFirst on_part "(")
      .ok (.createIndexStmt tp.1.pyStrip index_name ((rstripSet tp.2 [')']).pyStrip))

/-- Embedding of `parse_create_index` with its exception wrapper. -/
def parse_create_index (command : String) : Except PyErr Parsed :=
  match parse_create_index_inner command with
  | .ok p => .ok p
  | .error e => .error (.valueError ("Error parsing CREATE INDEX: " ++ errText e))

/-- Embedding of the `parse(command)` dispatcher (`sql_parser.py`):
strip the trailing semicolon, recognise the statement kind from the leading
tokens (keywords case-insensitive), and delegate; anything else raises the
unknown-command `ValueError`.  A bare `CREATE` reads `tokens[1]` in the
final `CREATE INDEX` test and raises `IndexError`, as in the source. -/
def parse (command : String) : Except PyErr Parsed :=
  let command := (rstripSet command [';']).pyStrip
  let tokens := pySplitWs command
  if tokens.isEmpty then .error (.valueError "Empty command")
  else
    let command_type := (tokens.headD "").pyUpper
    if command_type == "SHOW" && tokens.length > 1 &&
        (tokens.getD 1 "").pyUpper == "TABLES" then .ok .showTables
    else if command_type == "DESCRIBE" || command_type == "DESC" then
      if tokens.length < 2 then .error (.valueError "DESCRIBE requires table name")
      else .ok (.describe (tokens.getD 1 ""))
    else if command_type == "CREATE" && tokens.length > 1 &&
        (tokens.getD 1 "").pyUpper == "TABLE" then parse_create_table command
    else if command_type == "INSERT" && tokens.length > 1 &&
        (tokens.getD 1 "").pyUpper == "INTO" then parse_insert command
    else if command_type == "SELECT" then parse_select command
    else if command_type == "UPDATE" then parse_update command
    else if command_type == "DELETE" then parse_delete command
    else if command_type == "DROP" && tokens.length > 1 &&
        (tokens.getD 1 "").pyUpper == "TABLE" then parse_drop_table command
    else if command_type == "CREATE" then
      if tokens.length < 2 then .error (.indexError "list index out of range")
      else if (tokens.getD 1 "").pyUpper == "INDEX" then parse_create_index command
      else .error (.valueError ("Unknown command: " ++ command_type))
    else .error (.valueError ("Unknown command: " ++ command_type))

/-- Modelled from the spec: `Database.execute` (`my_db/database.py`, not
among the sources).  Spec 2 and 6: the statement-execution entry point
parses the raw text and dispatches the descriptor to the query executor,
raising parse and execution errors to the caller. -/
def DB.execute (db : DB) (text : String) : Except PyErr (QueryResult × DB) := do
  let p ← parse text
  execute_query p db

/-- Run a statement sequence through the entry point, threading the state;
the result is the last statement's result with the final state. -/
def runStmts (db : DB) (stmts : List String) : Except PyErr (QueryResult × DB) :=
  stmts.foldlM (fun acc s => DB.execute acc.2 s) (QueryResult.msg "", db)

/-- Final state of a statement sequence (`none` when a statement raised). -/
def runDb (db : DB) (stmts : List String) : Option DB :=
  (runStmts db stmts).toOption.map (fun r => r.2)

/-- A full-table equality scan on one column: the rows whose current value
on the column equals the probe value (the engine's non-indexed equality
matching, as in the `select_with_join` fallback scan). -/
def scanEq (db : DB) (table_name column : String) (value : Val) : List Nat :=
  match DB.get_table db table_name with
  | none => []
  | some t => t.rowIds.filter (fun rid => pyGetRow (dbRow db rid) column == value)

/-- The premise of the duplicate-primary-key rejection: some primary-key
column's value in the candidate row equals that column's value in an
existing row of the table. -/
def PkDup (db : DB) (table : Table) (row : Row) : Prop :=
  ∃ col ∈ table.columns, col.primary_key = true ∧
    table.rowIds.any (fun rid =>
      pyGetRow (dbRow db rid) col.name == pyGetRow row col.name) = true

/-- The premise of the duplicate-unique-value rejection, analogous. -/
def UniqueDup (db : DB) (table : Table) (row : Row) : Prop :=
  ∃ col ∈ table.columns, col.unique = true ∧
    table.rowIds.any (fun rid =>
      pyGetRow (dbRow db rid) col.name == pyGetRow row col.name) = true

/-- The premise of the foreign-key rejection: some column carries a foreign
key, its supplied value is neither null nor the literal `NULL` token, and
no row of the referenced table (when it resolves at all) has a
string-equal value in the referenced column. -/
def FkViolation (db : DB) (row : Row) (cols : List ColumnDef) : Prop :=
  ∃ col ∈ cols, ∃ fk, col.foreign_key = some fk ∧
    (pyGetRow row col.name == none) = false ∧
    ((pyStr (pyGetRow row col.name)).pyUpper == "NULL") = false ∧
    ∀ refT, DB.get_table db fk.ref_table = some refT →
      refT.rowIds.any (fun rid =>
        pyStr (pyGetRow (dbRow db rid) fk.ref_column) ==
          pyStr (pyGetRow row col.name)) = false

/-- A one-table state with a single-column primary key and one stored row,
used to instantiate the constraint-rejection theorem. -/
def dbDup : DB :=
  ⟨[("t", ⟨[⟨"id", "INT", true, false, none⟩], [0], []⟩)], [],
   [(0, [("id", some "1")])], 1⟩

/-- A minimal state carrying an (empty) table `t`, used to instantiate the
returned-error-value theorem. -/
def dbT : DB :=
  ⟨[("t", ⟨[⟨"id", "INT", false, false, none⟩], [], []⟩)], [], [], 0⟩

/-- A one-column, zero-row table state used to instantiate the
surplus-values theorem. -/
def dbOneCol : DB :=
  ⟨[("t", ⟨[⟨"id", "INT", false, false, none⟩], [], []⟩)], [], [], 0⟩

/-- A table `t` declaring columns `id` and `name` with one stored row and
no indexes, used to exercise column-case behavior. -/
def dbNameCol : DB :=
  ⟨[("t", ⟨[⟨"id", "INT", false, false, none⟩,
            ⟨"name", "VARCHAR", false, false, none⟩], [0], []⟩)], [],
   [(0, [("id", some "1"), ("name", some "a")])], 1⟩

/-! ## Theorems about the claims -/

/-- Boolean prefix tests accept appending: `l.isPrefixOf (l ++ t)`. -/
theorem listPrefixOfAppend (l t : List Char) : l.isPrefixOf (l ++ t) = true := by
  induction l with
  | nil => simp [List.isPrefixOf]
  | cons a as ih => simp [List.isPrefixOf, ih]

/-- `strStarts` accepts any extension of the tested text. -/
theorem strStarts_self_append (p t : String) : strStarts p (p ++ t) = true := by
  unfold strStarts
  have h : (p ++ t).toList = p.toList ++ t.toList := by
    cases p; cases t; rfl
  rw [h]
  exact listPrefixOfAppend _ _

/-- Every message of the form `"Error: " ++ r` starts with `Error:`. -/
theorem strStartsError (r : String) : strStarts "Error:" ("Error: " ++ r) = true := by
  have h : ("Error: " ++ r) = ("Error:" ++ (" " ++ r)) := by cases r; rfl
  rw [h]
  exact strStarts_self_append _ _

/-- C1: the round trip `CREATE TABLE t (id INT PRIMARY KEY, name VARCHAR)`;
`INSERT INTO t VALUES (1,'a')`; `SELECT * FROM t WHERE id=1` does NOT return
the inserted row: `parse_select` never assigns its `where` field and folds
the WHERE text into the base-table name, so the pipeline answers with a
table-not-found error string instead of the one-row result the claim (and
the parser's own docstring) promises. -/
theorem c1_round_trip_fails :
    parse "SELECT * FROM t WHERE id=1" =
      .ok (.selectStmt "t where id=1" .star none none) ∧
    (runStmts emptyDb
        ["CREATE TABLE t (id INT PRIMARY KEY, name VARCHAR)",
         "INSERT INTO t VALUES (1,'a')",
         "SELECT * FROM t WHERE id=1"]).toOption.map (fun r => r.1) =
      some (.msg "Error: Table 't where id=1' does not exist") :=
  ⟨by rfl, by rfl⟩

/-- C2: index/scan equivalence is broken by UPDATE.  `update_table` mutates
the rows before calling `update_indexes_on_update`, so the old value can no
longer be read and the row is never removed from its old-value bucket: after
`UPDATE t SET id=2`, `lookup(t, id, "1")` still returns the (now mutated)
row while the equality scan for `"1"` returns nothing. -/
theorem c2_update_breaks_index_scan_equivalence :
    (runDb emptyDb
        ["CREATE TABLE t (id INT PRIMARY KEY)",
         "INSERT INTO t VALUES (1)",
         "CREATE INDEX idx ON t(id)",
         "UPDATE t SET id=2"]).map
      (fun db =>
        (lookup_by_index db "t" "id" (some "1"),
         scanEq db "t" "id" (some "1"),
         dbRow db 0)) =
    some (some [0], [], [("id", some "2")]) := by
  rfl

/-- C3: the ON DELETE SET NULL cascade never fires for a DELETE written with
letters in the table name: `parse_delete` uppercases the table name while
foreign keys store `ref_table` lowercased, and `delete_from` compares the
two verbatim.  After deleting the referenced parent row, the dependent
child row still carries the dangling FK value `"1"` instead of null. -/
theorem c3_cascade_set_null_never_fires :
    (runDb emptyDb
        ["CREATE TABLE parent (id INT PRIMARY KEY)",
         "CREATE TABLE child (id INT PRIMARY KEY, pid INT FOREIGN KEY REFERENCES parent(id))",
         "INSERT INTO parent VALUES (1)",
         "INSERT INTO child VALUES (1, 1)",
         "DELETE FROM parent WHERE id=1"]).map
      (fun db =>
        (dbRow db 1,
         (DB.get_table db "parent").map (fun t => t.rowIds),
         (DB.get_table db "child").map (fun t => t.rowIds))) =
    some ([("id", some "1"), ("pid", some "1")], some [], some [1]) := by
  rfl

/-- C4: `drop_table` removes only the table entry and leaves the index
store untouched: after dropping `t`, its table lookup fails but the index
on `t.id` is still registered and still answers lookups. -/
theorem c4_drop_table_leaves_indexes_behind :
    (runDb emptyDb
        ["CREATE TABLE t (id INT)",
         "CREATE INDEX idx ON t(id)",
         "DROP TABLE t"]).map
      (fun db =>
        (DB.get_table db "t",
         lookupA db.indexes "t",
         lookup_by_index db "t" "id" (some "1"))) =
    some (none, some [("id", ⟨"idx", "id", []⟩)], some []) := by
  rfl

/-- C7: the null-exclusion invariant is violated through the cascade: for a
parent table whose name contains no letters the case-mangling of
`parse_delete` is the identity, the SET NULL cascade fires, and
`update_indexes_on_update` files the dependent row under the bucket key
null — the index on `child.fk` ends with a bucket keyed by a null value. -/
theorem c7_on_update_files_row_under_null_key :
    (runDb emptyDb
        ["CREATE TABLE 123 (id INT PRIMARY KEY)",
         "CREATE TABLE child (id INT PRIMARY KEY, fk INT FOREIGN KEY REFERENCES 123(id))",
         "INSERT INTO 123 VALUES (1)",
         "INSERT INTO child VALUES (1, 1)",
         "CREATE INDEX idx ON child(fk)",
         "DELETE FROM 123 WHERE id=1"]).map
      (fun db => lookupA db.indexes "child") =
    some (some [("fk", ⟨"idx", "fk", [(some "1", [1]), (none, [1])]⟩)]) := by
  rfl

/-- C6 counterexample: with the row value `"1.0"` and the clause `a=1`, the
claimed numeric-first comparison would match — numerically the two sides
are equal, as the engine's own ordering operators `>=` and `<=` both accept
the pair — but `filter_rows` keeps no row: the `=` operator compares the
two sides directly as strings. -/
theorem c6_counterexample_eq_compares_strings :
    filter_rows [(0, [("a", some "1.0")])] [0] "a=1" = .ok [] ∧
    matchOp .opGe "1.0" "1" = true ∧ matchOp .opLe "1.0" "1" = true ∧
    matchOp .opEq "1.0" "1" = false :=
  ⟨by rfl, by rfl, by rfl, by rfl⟩

/-- C8 counterexample: an UPDATE whose SET column differs only in case from
the declared column does not mutate the declared column — it appends a new
field under the SET spelling (`NAME`) while the declared `name` keeps its
old value. -/
theorem c8_counterexample_set_case_adds_field :
    (runDb emptyDb
        ["CREATE TABLE t (id INT, name VARCHAR)",
         "INSERT INTO t VALUES (1, 'a')",
         "UPDATE t SET NAME='b' WHERE id=1"]).map (fun db => dbRow db 0) =
    some [("id", some "1"), ("name", some "a"), ("NAME", some "b")] := by
  rfl

/-- C9 counterexample: re-creating an existing table does not raise — the
entry point returns normally and the failure is an ordinary result value
(the `Error: ...` message string). -/
theorem c9_counterexample_error_as_return_value :
    (runStmts emptyDb
        ["CREATE TABLE t (id INT)",
         "CREATE TABLE t (id INT)"]).toOption.map (fun r => r.1) =
      some (.msg "Error: Table 't' already exists") := by
  rfl

/-- A primary-key rejection message always starts with `Error:`. -/
theorem pkError_msg_starts (db : DB) (table : Table) (row : Row)
    (tname m : String) (h : pkError db table row tname = some m) :
    strStarts "Error:" m = true := by
  unfold pkError at h
  rcases Option.map_eq_some'.mp h with ⟨col, _hfind, hm⟩
  rw [← hm]
  exact strStartsError _

/-- A unique-value rejection message always starts with `Error:`. -/
theorem uniqueError_msg_starts (db : DB) (table : Table) (row : Row)
    (tname m : String) (h : uniqueError db table row tname = some m) :
    strStarts "Error:" m = true := by
  unfold uniqueError at h
  rcases Option.map_eq_some'.mp h with ⟨col, _hfind, hm⟩
  rw [← hm]
  exact strStartsError _

/-- A foreign-key rejection message always starts with `Error:`. -/
theorem fkCheckCols_msg_starts (db : DB) (row : Row) :
    ∀ (cols : List ColumnDef) (m : String),
      fkCheckCols db row cols = some m → strStarts "Error:" m = true := by
  intro cols
  induction cols with
  | nil => intro m h; simp [fkCheckCols] at h
  | cons c rest ih =>
    intro m h
    unfold fkCheckCols at h
    cases hcfk : c.foreign_key with
    | none =>
      simp only [hcfk] at h
      exact ih m h
    | some fk =>
      simp only [hcfk] at h
      by_cases hskip : (pyGetRow row c.name == none ||
          (pyStr (pyGetRow row c.name)).pyUpper == "NULL") = true
      · simp only [hskip, if_true] at h
        exact ih m h
      · have hskip' : (pyGetRow row c.name == none ||
            (pyStr (pyGetRow row c.name)).pyUpper == "NULL") = false := by
          revert hskip
          cases (pyGetRow row c.name == none ||
            (pyStr (pyGetRow row c.name)).pyUpper == "NULL") <;> simp
        simp only [hskip', Bool.false_eq_true, if_false] at h
        cases hrt : DB.get_table db fk.ref_table with
        | none =>
          simp only [hrt] at h
          injection h with h'
          rw [← h']
          exact strStartsError _
        | some refT =>
          simp only [hrt] at h
          by_cases hany : (refT.rowIds.any (fun rid =>
              pyStr (pyGetRow (dbRow db rid) fk.ref_column) ==
                pyStr (pyGetRow row c.name))) = true
          · simp only [hany, if_true] at h
            exact ih m h
          · have hany' : (refT.rowIds.any (fun rid =>
                pyStr (pyGetRow (dbRow db rid) fk.ref_column) ==
                  pyStr (pyGetRow row c.name))) = false := by
              revert hany
              cases (refT.rowIds.any (fun rid =>
                pyStr (pyGetRow (dbRow db rid) fk.ref_column) ==
                  pyStr (pyGetRow row c.name))) <;> simp
            simp only [hany', Bool.false_eq_true, if_false] at h
            injection h with h'
            rw [← h']
            exact strStartsError _

/-- A present primary-key duplicate makes the primary-key check fire. -/
theorem pkError_of_dup (db : DB) (table : Table) (row : Row) (tname : String)
    (h : PkDup db table row) : ∃ m, pkError db table row tname = some m := by
  rcases h with ⟨col, hmem, hpk, hany⟩
  have hfind : (table.columns.find? (fun col =>
      col.primary_key &&
        table.rowIds.any (fun rid =>
          pyGetRow (dbRow db rid) col.name == pyGetRow row col.name))).isSome := by
    refine List.find?_isSome.mpr ⟨col, hmem, ?_⟩
    rw [hpk, hany]
    rfl
  rcases Option.isSome_iff_exists.mp hfind with ⟨c0, hc0⟩
  exact ⟨_, by unfold pkError; rw [hc0]; rfl⟩

/-- A present unique-value duplicate makes the unique check fire. -/
theorem uniqueError_of_dup (db : DB) (table : Table) (row : Row) (tname : String)
    (h : UniqueDup db table row) : ∃ m, uniqueError db table row tname = some m := by
  rcases h with ⟨col, hmem, hu, hany⟩
  have hfind : (table.columns.find? (fun col =>
      col.unique &&
        table.rowIds.any (fun rid =>
          pyGetRow (dbRow db rid) col.name == pyGetRow row col.name))).isSome := by
    refine List.find?_isSome.mpr ⟨col, hmem, ?_⟩
    rw [hu, hany]
    rfl
  rcases Option.isSome_iff_exists.mp hfind with ⟨c0, hc0⟩
  exact ⟨_, by unfold uniqueError; rw [hc0]; rfl⟩

/-- A present foreign-key violation makes the foreign-key check fire. -/
theorem fkCheckCols_of_violation (db : DB) (row : Row) :
    ∀ cols, FkViolation db row cols → ∃ m, fkCheckCols db row cols = some m := by
  intro cols
  induction cols with
  | nil => rintro ⟨col, hmem, _⟩; cases hmem
  | cons c rest ih =>
    rintro ⟨col, hmem, fk, hfk, hv1, hv2, hv3⟩
    rcases List.mem_cons.mp hmem with rfl | hmem'
    · unfold fkCheckCols
      simp only [hfk, hv1, hv2, Bool.or_self, Bool.false_eq_true, if_false]
      cases hrt : DB.get_table db fk.ref_table with
      | none =>
        simp only [hrt]
        exact ⟨_, rfl⟩
      | some refT =>
        have hany := hv3 refT hrt
        simp only [hrt, hany, Bool.false_eq_true, if_false]
        exact ⟨_, rfl⟩
    · unfold fkCheckCols
      cases hcfk : c.foreign_key with
      | none =>
        simp only [hcfk]
        exact ih ⟨col, hmem', fk, hfk, hv1, hv2, hv3⟩
      | some fk2 =>
        simp only [hcfk]
        by_cases hskip :
            (pyGetRow row c.name == none ||
              (pyStr (pyGetRow row c.name)).pyUpper == "NULL") = true
        · simp only [hskip, if_true]
          exact ih ⟨col, hmem', fk, hfk, hv1, hv2, hv3⟩
        · have hskip' : (pyGetRow row c.name == none ||
              (pyStr (pyGetRow row c.name)).pyUpper == "NULL") = false := by
            revert hskip
            cases (pyGetRow row c.name == none ||
              (pyStr (pyGetRow row c.name)).pyUpper == "NULL") <;> simp
          simp only [hskip', Bool.false_eq_true, if_false]
          cases hrt : DB.get_table db fk2.ref_table with
          | none =>
            simp only [hrt]
            exact ⟨_, rfl⟩
          | some refT =>
            simp only [hrt]
            by_cases hany : (refT.rowIds.any (fun rid =>
                pyStr (pyGetRow (dbRow db rid) fk2.ref_column) ==
                  pyStr (pyGetRow row c.name))) = true
            · simp only [hany, if_true]
              exact ih ⟨col, hmem', fk, hfk, hv1, hv2, hv3⟩
            · have hany' : (refT.rowIds.any (fun rid =>
                  pyStr (pyGetRow (dbRow db rid) fk2.ref_column) ==
                    pyStr (pyGetRow row c.name))) = false := by
                revert hany
                cases (refT.rowIds.any (fun rid =>
                  pyStr (pyGetRow (dbRow db rid) fk2.ref_column) ==
                    pyStr (pyGetRow row c.name))) <;> simp
              simp only [hany', Bool.false_eq_true, if_false]
              exact ⟨_, rfl⟩

/-- C5: constraint enforcement with atomicity.  When the candidate row
duplicates a primary-key or unique value, or carries a foreign-key value
that resolves to no row of the referenced table, `insert_into` answers with
an `Error:`-prefixed message and returns the database exactly as it was —
no row is appended and no index is touched. -/
theorem c5_constraint_insert_rejected_unchanged
    (db : DB) (tname key : String) (table : Table) (vals : List String)
    (hget : getTableKey db tname = some (key, table))
    (hviol : PkDup db table (buildRow table.columns vals []) ∨
      UniqueDup db table (buildRow table.columns vals []) ∨
      FkViolation db (buildRow table.columns vals []) table.columns) :
    (insert_into tname vals db).2 = db ∧
      strStarts "Error:" (insert_into tname vals db).1 = true := by
  have hins : insert_into tname vals db =
      insertChecked tname key table (buildRow table.columns vals []) db := by
    unfold insert_into
    rw [hget]
  rw [hins]
  cases hpk : pkError db table (buildRow table.columns vals []) tname with
  | some m =>
    have heq : insertChecked tname key table (buildRow table.columns vals []) db = (m, db) := by
      unfold insertChecked
      rw [hpk]
    rw [heq]
    exact ⟨rfl, pkError_msg_starts _ _ _ _ _ hpk⟩
  | none =>
    cases hun : uniqueError db table (buildRow table.columns vals []) tname with
    | some m =>
      have heq : insertChecked tname key table (buildRow table.columns vals []) db = (m, db) := by
        unfold insertChecked
        rw [hpk, hun]
      rw [heq]
      exact ⟨rfl, uniqueError_msg_starts _ _ _ _ _ hun⟩
    | none =>
      cases hfk : fkCheckCols db (buildRow table.columns vals []) table.columns with
      | some m =>
        have heq : insertChecked tname key table (buildRow table.columns vals []) db = (m, db) := by
          unfold insertChecked
          rw [hpk, hun, hfk]
        rw [heq]
        exact ⟨rfl, fkCheckCols_msg_starts _ _ _ _ hfk⟩
      | none =>
        exfalso
        rcases hviol with h | h | h
        · rcases pkError_of_dup db table _ tname h with ⟨m, hm⟩
          rw [hpk] at hm
          exact Option.noConfusion hm
        · rcases uniqueError_of_dup db table _ tname h with ⟨m, hm⟩
          rw [hun] at hm
          exact Option.noConfusion hm
        · rcases fkCheckCols_of_violation db _ table.columns h with ⟨m, hm⟩
          rw [hfk] at hm
          exact Option.noConfusion hm

/-- C5 witness: inserting a second row with primary-key value `1` into a
table already holding one is rejected with the state unchanged. -/
theorem c5_constraint_insert_witness :
    getTableKey dbDup "t" =
      some ("t", ⟨[⟨"id", "INT", true, false, none⟩], [0], []⟩) ∧
    PkDup dbDup ⟨[⟨"id", "INT", true, false, none⟩], [0], []⟩
      (buildRow [⟨"id", "INT", true, false, none⟩] ["1"] []) ∧
    (insert_into "t" ["1"] dbDup).2 = dbDup ∧
      strStarts "Error:" (insert_into "t" ["1"] dbDup).1 = true := by
  refine ⟨by rfl, ⟨⟨"id", "INT", true, false, none⟩, by decide, by rfl, by rfl⟩, ?_⟩
  exact c5_constraint_insert_rejected_unchanged dbDup "t" "t"
    ⟨[⟨"id", "INT", true, false, none⟩], [0], []⟩ ["1"] (by rfl)
    (Or.inl ⟨⟨"id", "INT", true, false, none⟩, by decide, by rfl, by rfl⟩)

/-- C6 amended: for every WHERE clause, `detectOp` scans for `LIKE`, `>=`,
`<=`, `!=`, `<>`, `>`, `<`, `=` in that priority order (first match wins,
`ValueError` when none matches, and a `LIKE` split yielding a single
fragment gives `IndexError`); the column and literal are the first two
fragments of the split, and the rows kept are exactly those whose
stringified cell satisfies `matchOp` — whose semantics are per-operator:
`=` and `!=` compare the two sides directly as strings with no numeric
attempt, only the ordering operators `>`, `<`, `>=`, `<=` try `float()` on
both sides first and fall back to lexicographic string comparison when
either parse fails, and `LIKE` matches the `%`/`_`-translated pattern
case-insensitively. -/
theorem c6_amended_operator_semantics :
    (∀ (heap : Heap) (ids : List Nat) (clause : String) (e : PyErr),
       detectOp clause = .error e → filter_rows heap ids clause = .error e) ∧
    (∀ (heap : Heap) (ids : List Nat) (clause : String) (op : WhereOp)
       (parts : List String),
       detectOp clause = .ok (op, parts) → parts.length < 2 →
       filter_rows heap ids clause =
         .error (.indexError "list index out of range")) ∧
    (∀ (heap : Heap) (ids : List Nat) (clause : String) (op : WhereOp)
       (parts : List String),
       detectOp clause = .ok (op, parts) → 2 ≤ parts.length →
       filter_rows heap ids clause =
         .ok (ids.filter (fun i =>
           matchOp op (rowStr heap i ((parts.headD "").pyStrip))
             (stripQuotes ((parts.getD 1 "").pyStrip))))) ∧
    (∀ rv value, matchOp .opEq rv value = (rv == value)) ∧
    (∀ rv value, matchOp .opNe rv value = (rv != value)) ∧
    (∀ rv value, matchOp .opGt rv value =
       (match parseFloat rv, parseFloat value with
        | some a, some b => pfLt b a
        | _, _ => pyStrLt value rv)) ∧
    (∀ rv value, matchOp .opLt rv value =
       (match parseFloat rv, parseFloat value with
        | some a, some b => pfLt a b
        | _, _ => pyStrLt rv value)) ∧
    (∀ rv value, matchOp .opGe rv value =
       (match parseFloat rv, parseFloat value with
        | some a, some b => pfLe b a
        | _, _ => pyStrLe value rv)) ∧
    (∀ rv value, matchOp .opLe rv value =
       (match parseFloat rv, parseFloat value with
        | some a, some b => pfLe a b
        | _, _ => pyStrLe rv value)) ∧
    (∀ rv value, matchOp .opLike rv value =
       rxMatch ((pyReplace (pyReplace value "%" ".*") "_" ".").toList)
         rv.toList) := by
  refine ⟨?_, ?_, ?_, fun rv value => rfl, fun rv value => rfl,
    fun rv value => rfl, fun rv value => rfl, fun rv value => rfl,
    fun rv value => rfl, fun rv value => rfl⟩
  · intro heap ids clause e h
    unfold filter_rows
    rw [h]
    rfl
  · intro heap ids clause op parts h hlen
    unfold filter_rows
    rw [h]
    match parts, hlen with
    | [], _ => rfl
    | [a], _ => rfl
  · intro heap ids clause op parts h hlen
    unfold filter_rows
    rw [h]
    match parts, hlen with
    | a :: b :: t, _ => rfl

/-- C6 amended witness: the `!=` clause `a!=2` (an operator the original
claim covered) filters by plain string inequality of the two sides. -/
theorem c6_amended_witness :
    detectOp "a!=2" = .ok (.opNe, ["a", "2"]) ∧
    (2 : Nat) ≤ (["a", "2"] : List String).length ∧
    filter_rows [(0, [("a", some "2")])] [0] "a!=2" =
      .ok (([0] : List Nat).filter (fun i =>
        matchOp .opNe
          (rowStr [(0, [("a", some "2")])] i
            (((["a", "2"] : List String).headD "").pyStrip))
          (stripQuotes (((["a", "2"] : List String).getD 1 "").pyStrip)))) :=
  ⟨by rfl, by decide,
   c6_amended_operator_semantics.2.2.1 [(0, [("a", some "2")])] [0] "a!=2"
     .opNe ["a", "2"] (by rfl) (by decide)⟩

/-- C8 amended: table-name resolution is case-insensitive in every
statement — any two spellings with the same lowercase form resolve
identically — and CREATE INDEX resolves its column case-insensitively to
the declared spelling; but column references in WHERE clauses and SET
assignments are case-sensitive.  A WHERE clause naming the column in a
different case matches nothing, and an UPDATE whose SET column differs only
in case from the declared column appends a new field under the SET
spelling; the declared column's entry is written only when an index exists
on that column, because the index update hook resolves the SET column
case-insensitively and assigns the new value under the declared spelling in
its add phase (leaving both spellings set to the new value) — with no index
the declared column keeps its old value. -/
theorem c8_amended_case_semantics :
    (∀ (db : DB) (n1 n2 : String), n1.pyLower = n2.pyLower →
       DB.get_table db n1 = DB.get_table db n2 ∧
       DB.get_table_name db n1 = DB.get_table_name db n2) ∧
    (filter_rows dbNameCol.heap [0] "NAME=a" = .ok [] ∧
     filter_rows dbNameCol.heap [0] "name=a" = .ok [0]) ∧
    ((update_table "t" [("NAME", "b")] none dbNameCol).toOption.map
        (fun r => dbRow r.2 0) =
      some [("id", some "1"), ("name", some "a"), ("NAME", some "b")]) ∧
    ((runDb emptyDb
        ["CREATE TABLE t (id INT, name VARCHAR)",
         "INSERT INTO t VALUES (1, 'a')",
         "CREATE INDEX ix ON t(name)",
         "UPDATE t SET NAME='b' WHERE id=1"]).map
      (fun db => (dbRow db 0, lookup_by_index db "t" "name" (some "b"))) =
      some ([("id", some "1"), ("name", some "b"), ("NAME", some "b")],
        some [0])) ∧
    ((create_index dbNameCol "t" "ix" "NAME").1 =
      "✓ Index 'ix' created on column 'name' in table 't'." ∧
     (create_index dbNameCol "t" "ix" "NAME").2.indexes =
      [("t", [("name", ⟨"ix", "name", [(some "a", [0])]⟩)])]) := by
  refine ⟨?_, ⟨by rfl, by rfl⟩, by rfl, by rfl, ⟨by rfl, by rfl⟩⟩
  intro db n1 n2 h
  constructor <;>
    simp only [DB.get_table, DB.get_table_name, getTableKey, h]

/-- C8 amended witness: `Tt` and `tT` resolve to the same table. -/
theorem c8_amended_witness :
    ("Tt").pyLower = ("tT").pyLower ∧
    DB.get_table emptyDb "Tt" = DB.get_table emptyDb "tT" ∧
    DB.get_table dbNameCol "T" = DB.get_table dbNameCol "t" :=
  ⟨by rfl, (c8_amended_case_semantics.1 emptyDb "Tt" "tT" (by rfl)).1,
   (c8_amended_case_semantics.1 dbNameCol "T" "t" (by rfl)).1⟩

/-- C9 amended: parse failures raise typed errors — every command whose
leading keyword is none of the recognised ones raises `ValueError` with the
unknown-command message, while a bare `CREATE` raises `IndexError` through
the dispatcher's unguarded second-token access — but executor-level
failures do not raise: a CREATE on an existing table and an INSERT into a
missing table return normally with an ordinary `Error: ...` message string
and the state unchanged, and a constraint violation likewise comes back
through the entry point as an ordinary message value. -/
theorem c9_amended_error_reporting :
    (∀ command : String,
       (pySplitWs ((rstripSet command [';']).pyStrip)).isEmpty = false →
       ((((pySplitWs ((rstripSet command [';']).pyStrip)).headD "").pyUpper ==
          "SHOW") = false) →
       ((((pySplitWs ((rstripSet command [';']).pyStrip)).headD "").pyUpper ==
          "DESCRIBE") = false) →
       ((((pySplitWs ((rstripSet command [';']).pyStrip)).headD "").pyUpper ==
          "DESC") = false) →
       ((((pySplitWs ((rstripSet command [';']).pyStrip)).headD "").pyUpper ==
          "CREATE") = false) →
       ((((pySplitWs ((rstripSet command [';']).pyStrip)).headD "").pyUpper ==
          "INSERT") = false) →
       ((((pySplitWs ((rstripSet command [';']).pyStrip)).headD "").pyUpper ==
          "SELECT") = false) →
       ((((pySplitWs ((rstripSet command [';']).pyStrip)).headD "").pyUpper ==
          "UPDATE") = false) →
       ((((pySplitWs ((rstripSet command [';']).pyStrip)).headD "").pyUpper ==
          "DELETE") = false) →
       ((((pySplitWs ((rstripSet command [';']).pyStrip)).headD "").pyUpper ==
          "DROP") = false) →
       parse command = .error (.valueError ("Unknown command: " ++
         ((pySplitWs ((rstripSet command [';']).pyStrip)).headD "").pyUpper))) ∧
    parse "CREATE" = .error (.indexError "list index out of range") ∧
    (∀ (db : DB) (tname : String) (cols : List ColumnDef) (fks : List FKEntry),
       DB.table_exists db tname.pyLower = true →
       create_table tname cols fks db =
         ("Error: " ++ ("Table '" ++ tname.pyLower ++ "' already exists"), db)) ∧
    (∀ (db : DB) (tname : String) (vals : List String),
       getTableKey db tname = none →
       insert_into tname vals db =
         ("Error: " ++ ("Table '" ++ tname ++ "' does not exist"), db)) ∧
    (runStmts emptyDb
        ["CREATE TABLE t (id INT PRIMARY KEY)",
         "INSERT INTO t VALUES (1)",
         "INSERT INTO t VALUES (1)"]).toOption.map (fun r => r.1) =
      some (.msg
        "Error: Duplicate PRIMARY KEY value '1' for column 'id' in table 't'") := by
  refine ⟨?_, by rfl, ?_, ?_, by rfl⟩
  · intro command h0 h1 h2 h3 h4 h5 h6 h7 h8 h9
    unfold parse
    simp only [h0, h1, h2, h3, h4, h5, h6, h7, h8, h9, Bool.false_and,
      Bool.or_self, Bool.false_eq_true, if_false]
  · intro db tname cols fks h
    unfold create_table
    simp only [h, if_true]
  · intro db tname vals h
    unfold insert_into
    simp only [h]

/-- C9 amended witness: the unknown-command raise and both returned-error
shapes at concrete inputs. -/
theorem c9_amended_witness :
    parse "FROB TABLES" = .error (.valueError "Unknown command: FROB") ∧
    DB.table_exists dbT ("T").pyLower = true ∧
    create_table "T" [] [] dbT =
      ("Error: " ++ ("Table '" ++ ("T").pyLower ++ "' already exists"), dbT) ∧
    getTableKey emptyDb "x" = none ∧
    insert_into "x" [] emptyDb =
      ("Error: " ++ ("Table '" ++ "x" ++ "' does not exist"), emptyDb) :=
  ⟨c9_amended_error_reporting.1 "FROB TABLES" (by rfl) (by rfl) (by rfl)
     (by rfl) (by rfl) (by rfl) (by rfl) (by rfl) (by rfl) (by rfl),
   by rfl, c9_amended_error_reporting.2.2.1 dbT "T" [] [] (by rfl),
   by rfl, c9_amended_error_reporting.2.2.2.1 emptyDb "x" [] (by rfl)⟩

/-- Positional row construction only ever reads the first
`columns.length` values. -/
theorem buildRow_take :
    ∀ (cols : List ColumnDef) (vs : List String) (r : Row),
      buildRow cols (vs.take cols.length) r = buildRow cols vs r := by
  intro cols
  induction cols with
  | nil => intro vs r; rfl
  | cons c cs ih =>
    intro vs r
    cases vs with
    | nil => rfl
    | cons v vs' =>
      simp only [List.length_cons, List.take_succ_cons, buildRow]
      exact ih vs' _

/-- C10: an INSERT supplying more values than the table declares columns
behaves exactly like the same INSERT truncated to the declared column
count — the surplus values are silently discarded, the row is built by
positional assignment over the declared columns, and no error or warning
is produced beyond what the truncated insert itself would produce. -/
theorem c10_surplus_values_silently_discarded
    (db : DB) (tname key : String) (table : Table) (vals : List String)
    (hget : getTableKey db tname = some (key, table))
    (hlen : table.columns.length < vals.length) :
    insert_into tname vals db =
      insert_into tname (vals.take table.columns.length) db ∧
    buildRow table.columns vals [] =
      buildRow table.columns (vals.take table.columns.length) [] := by
  have _ := hlen
  have hb := buildRow_take table.columns vals ([] : Row)
  constructor
  · have h1 : insert_into tname vals db =
        insertChecked tname key table (buildRow table.columns vals []) db := by
      unfold insert_into
      rw [hget]
    have h2 : insert_into tname (vals.take table.columns.length) db =
        insertChecked tname key table
          (buildRow table.columns (vals.take table.columns.length) []) db := by
      unfold insert_into
      rw [hget]
    rw [h1, h2, hb]
  · exact hb.symm

/-- C10 witness: inserting three values into a one-column table equals
inserting just the first value. -/
theorem c10_surplus_witness :
    getTableKey dbOneCol "t" =
      some ("t", ⟨[⟨"id", "INT", false, false, none⟩], [], []⟩) ∧
    (1 : Nat) < 3 ∧
    insert_into "t" ["1", "2", "3"] dbOneCol =
      insert_into "t" (["1", "2", "3"].take 1) dbOneCol :=
  ⟨by rfl, by decide,
   (c10_surplus_values_silently_discarded dbOneCol "t" "t"
      ⟨[⟨"id", "INT", false, false, none⟩], [], []⟩ ["1", "2", "3"]
      (by rfl) (by decide)).1⟩

end MyDb
